import Mathlib

/-!
Shallow embedding of the interview-everything core services:
the keyword question classifier (`QuestionClassifier.ts`),
the realtime transcription session manager (`RealtimeTranscriptionManager`),
and the system audio capture pipeline with its PCM encoder
(`SystemAudioCapture.ts`).  Strings are modelled as lists of characters,
JavaScript numbers as rationals, byte buffers as lists of naturals, and the
asynchronous callbacks of the manager as explicit state-passing functions
that return the new state together with the list of emitted events.
-/

/-- Strings of the JavaScript source, modelled as lists of characters. -/
abbrev Str := List Char

/-- JavaScript `String.prototype.toLowerCase` on the ASCII texts involved. -/
def strLower (s : Str) : Str := s.map Char.toLower

/-- JavaScript `haystack.includes(needle)`: contiguous substring test. -/
def strContains (haystack needle : Str) : Bool :=
  haystack.tails.any (fun t => needle.isPrefixOf t)

/-- The `QuestionType` enum of `QuestionClassifier.ts`. -/
inductive QuestionType where
  | BEHAVIORAL
  | SYSTEM_DESIGN
  | OBJECT_ORIENTED_DESIGN
  | CODING
  | UNKNOWN
  deriving DecidableEq, Repr

/-- Keyword list of `keywordMap[QuestionType.BEHAVIORAL]`. -/
def behavioralKeywords : List Str :=
  ["tell me about a time".toList, "describe a situation".toList,
   "give me an example".toList, "how did you handle".toList,
   "what would you do if".toList, "leadership".toList, "challenge".toList,
   "conflict".toList, "mistake".toList, "failure".toList, "success".toList,
   "team".toList, "difficult".toList, "proud".toList, "disagreement".toList]

/-- Keyword list of `keywordMap[QuestionType.SYSTEM_DESIGN]`. -/
def systemDesignKeywords : List Str :=
  ["design a system".toList, "system architecture".toList,
   "scalability".toList, "distributed".toList, "microservices".toList,
   "database design".toList, "how would you design".toList,
   "architect".toList, "scale".toList, "throughput".toList,
   "latency".toList, "availability".toList, "reliability".toList]

/-- Keyword list of `keywordMap[QuestionType.OBJECT_ORIENTED_DESIGN]`. -/
def objectOrientedKeywords : List Str :=
  ["object oriented".toList, "class diagram".toList, "inheritance".toList,
   "polymorphism".toList, "encapsulation".toList, "abstraction".toList,
   "design pattern".toList, "singleton".toList, "factory".toList,
   "observer".toList, "strategy".toList]

/-- Keyword list of `keywordMap[QuestionType.CODING]`. -/
def codingKeywords : List Str :=
  ["implement".toList, "function".toList, "algorithm".toList,
   "complexity".toList, "time complexity".toList, "space complexity".toList,
   "data structure".toList, "array".toList, "linked list".toList,
   "tree".toList, "graph".toList, "hash table".toList,
   "dynamic programming".toList, "recursion".toList, "iteration".toList]

/-- The `keywordMap` object of `QuestionClassifier`; `Object.entries`
enumerates the four string keys in insertion order. -/
def keywordMap : List (QuestionType × List Str) :=
  [(QuestionType.BEHAVIORAL, behavioralKeywords),
   (QuestionType.SYSTEM_DESIGN, systemDesignKeywords),
   (QuestionType.OBJECT_ORIENTED_DESIGN, objectOrientedKeywords),
   (QuestionType.CODING, codingKeywords)]

/-- The inner `keywords.reduce` of `quickClassify`: how many keyword
phrases of the list occur as substrings of the lower-cased text. -/
def matchCount (lowerText : Str) (keywords : List Str) : Nat :=
  keywords.foldl
    (fun count keyword => count + (if strContains lowerText keyword then 1 else 0)) 0

/-- Keywords attached to a category (`keywordMap` lookup); the `UNKNOWN`
category owns no keywords. -/
def keywordsOf : QuestionType → List Str
  | QuestionType.BEHAVIORAL => behavioralKeywords
  | QuestionType.SYSTEM_DESIGN => systemDesignKeywords
  | QuestionType.OBJECT_ORIENTED_DESIGN => objectOrientedKeywords
  | QuestionType.CODING => codingKeywords
  | QuestionType.UNKNOWN => []

/-- Score of one category on a text: its keyword match count against the
lower-cased text. -/
def scoreOf (text : Str) (t : QuestionType) : Nat :=
  matchCount (strLower text) (keywordsOf t)

/-- Position of a category in the fixed enumeration order of `keywordMap`. -/
def catIndex : QuestionType → Nat
  | QuestionType.BEHAVIORAL => 0
  | QuestionType.SYSTEM_DESIGN => 1
  | QuestionType.OBJECT_ORIENTED_DESIGN => 2
  | QuestionType.CODING => 3
  | QuestionType.UNKNOWN => 4

/-- Embeds `QuestionClassifier.quickClassify`: lower-case the text, score every
category of `keywordMap`, fold for the best score keeping the earlier
category on ties (`current.score > best.score`), starting from
`(UNKNOWN, 0)`; answer `UNKNOWN` when the best score is zero. -/
def quickClassify (text : Str) : QuestionType :=
  let lowerText := strLower text
  let scores := keywordMap.map (fun p => (p.1, matchCount lowerText p.2))
  let bestMatch :=
    scores.foldl (fun best current => if current.2 > best.2 then current else best)
      (QuestionType.UNKNOWN, 0)
  if bestMatch.2 > 0 then bestMatch.1 else QuestionType.UNKNOWN

/-- Embeds `QuestionClassifier.detailedClassify`: the async entry point resolves
with the result of the synchronous quick classification. -/
def detailedClassify (text : Str) : QuestionType :=
  quickClassify text

/-!
`RealtimeTranscriptionManager`: private fields become a state record, and
every callback registered on the WebSocket becomes a function from the
state to the new state plus the list of events emitted through
`EventEmitter.emit`.  Network and platform primitives (`fetch` responses,
the WebSocket constructor, `JSON.parse`, `ws.send`, `Date.now`) are
external collaborators and enter as explicit parameters describing their
outcome.
-/

/-- Events emitted by `RealtimeTranscriptionManager` via `this.emit`. -/
inductive Emitted where
  | connected
  | errorEv (e : String)
  | disconnected
  | transcriptionDelta (text : Option String) (itemId : Option String)
      (contentIndex : Option Nat)
  | transcriptionCompleted (text : Option String) (itemId : Option String)
      (contentIndex : Option Nat)
  | speechStarted (audioStartMs : Option Nat) (itemId : Option String)
  | speechStopped (audioEndMs : Option Nat) (itemId : Option String)
  | apiError (e : Option String)
  deriving DecidableEq, Repr

/-- A parsed inbound WebSocket message (result of `JSON.parse`), with the
fields the two provider dispatchers read; absent JSON fields are `none`. -/
structure JsonMsg where
  type : String
  delta : Option String := none
  transcript : Option String := none
  item_id : Option String := none
  content_index : Option Nat := none
  audio_start_ms : Option Nat := none
  audio_end_ms : Option Nat := none
  text : Option String := none
  id : Option String := none
  timestamp : Option Nat := none
  error : Option String := none
  deriving DecidableEq, Repr

/-- The private fields of `RealtimeTranscriptionManager`; the connection
handle records the endpoint of the WebSocket it was opened on. -/
structure ManagerState where
  apiKey : String
  provider : String
  wsConnection : Option String
  sessionToken : Option String
  isConnected : Bool
  deriving DecidableEq, Repr

/-- The constructor `new RealtimeTranscriptionManager(apiKey, provider)`. -/
def mkManager (apiKey provider : String) : ManagerState :=
  { apiKey := apiKey, provider := provider, wsConnection := none,
    sessionToken := none, isConnected := false }

/-- Embeds `createOpenAISession`: the fetch response either carries
`client_secret.value` (stored as the session token, success) or not
(failure); a thrown fetch error is also caught and reported as `false`
with the state untouched, which coincides with the `none` case. -/
def createOpenAISession (st : ManagerState) (clientSecretValue : Option String) :
    ManagerState × Bool :=
  match clientSecretValue with
  | some v => ({ st with sessionToken := some v }, true)
  | none => (st, false)

/-- Embeds `createDeepSeekSession`: same shape over the `session_token` field. -/
def createDeepSeekSession (st : ManagerState) (sessionTokenField : Option String) :
    ManagerState × Bool :=
  match sessionTokenField with
  | some v => ({ st with sessionToken := some v }, true)
  | none => (st, false)

/-- Embeds `createTranscriptionSession`: dispatch on the provider. -/
def createTranscriptionSession (st : ManagerState) (tokenField : Option String) :
    ManagerState × Bool :=
  if st.provider = "deepseek" then createDeepSeekSession st tokenField
  else createOpenAISession st tokenField

/-- Endpoint selection of `connectToWebSocket`. -/
def wsEndpoint (provider : String) : String :=
  if provider = "deepseek" then "wss://api.deepseek.com/v1/audio/realtime"
  else "wss://api.openai.com/v1/audio/realtime"

/-- Embeds `connectToWebSocket`: fails at once without a session token; otherwise
constructs the WebSocket (`ctorOk` is whether `new WebSocket` returned
rather than threw — a throw is caught and reported as `false`) and stores
the handle.  Nothing is emitted synchronously; `connected` is emitted
later by the `open` callback. -/
def connectToWebSocket (st : ManagerState) (ctorOk : Bool) :
    ManagerState × Bool × List Emitted :=
  match st.sessionToken with
  | none => (st, false, [])
  | some _ =>
    if ctorOk then
      ({ st with wsConnection := some (wsEndpoint st.provider) }, true, [])
    else (st, false, [])

/-- The authentication frame sent by the `open` callback. -/
structure AuthFrame where
  type : String
  token : Option String
  deriving DecidableEq, Repr

/-- The `open` callback of `connectToWebSocket`: sends the auth frame,
sets `isConnected`, attaches the message listener and emits `connected`. -/
def onOpen (st : ManagerState) : ManagerState × List Emitted × AuthFrame :=
  ({ st with isConnected := true }, [Emitted.connected],
   { type := "auth", token := st.sessionToken })

/-- The `error` callback of `connectToWebSocket`: logs and emits `error`;
no field of the manager is written. -/
def onError (st : ManagerState) (e : String) : ManagerState × List Emitted :=
  (st, [Emitted.errorEv e])

/-- The `close` callback of `connectToWebSocket`: clears `isConnected`
and emits `disconnected`; the connection handle field is not cleared. -/
def onClose (st : ManagerState) : ManagerState × List Emitted :=
  ({ st with isConnected := false }, [Emitted.disconnected])

/-- Embeds `handleOpenAIMessage`: translate a parsed primary-provider message
into normalized events; unrecognized types are only logged. -/
def handleOpenAIMessage (st : ManagerState) (message : JsonMsg) :
    ManagerState × List Emitted :=
  if message.type = "conversation.item.input_audio_transcription.delta" then
    (st, [Emitted.transcriptionDelta message.delta message.item_id message.content_index])
  else if message.type = "conversation.item.input_audio_transcription.completed" then
    (st, [Emitted.transcriptionCompleted message.transcript message.item_id
            message.content_index])
  else if message.type = "input_audio_buffer.speech_started" then
    (st, [Emitted.speechStarted message.audio_start_ms message.item_id])
  else if message.type = "input_audio_buffer.speech_stopped" then
    (st, [Emitted.speechStopped message.audio_end_ms message.item_id])
  else if message.type = "error" then
    (st, [Emitted.apiError message.error])
  else (st, [])

/-- Embeds `handleDeepSeekMessage`: the secondary provider's translator;
`message.id || '0'` is modelled by defaulting an absent id to `"0"`. -/
def handleDeepSeekMessage (st : ManagerState) (message : JsonMsg) :
    ManagerState × List Emitted :=
  if message.type = "transcription.partial" then
    (st, [Emitted.transcriptionDelta message.text (some (message.id.getD "0")) (some 0)])
  else if message.type = "transcription.final" then
    (st, [Emitted.transcriptionCompleted message.text (some (message.id.getD "0"))
            (some 0)])
  else if message.type = "speech.started" then
    (st, [Emitted.speechStarted message.timestamp (some (message.id.getD "0"))])
  else if message.type = "speech.stopped" then
    (st, [Emitted.speechStopped message.timestamp (some (message.id.getD "0"))])
  else if message.type = "error" then
    (st, [Emitted.apiError message.error])
  else (st, [])

/-- The `message` callback installed by `setupWebSocketListeners`:
`JSON.parse` of the raw payload is modelled by its outcome `parsed`
(`none` = the payload is not valid JSON, the parse threw).  The
surrounding `try`/`catch` logs a parse failure and discards the frame,
so the handler is total: no exception escapes it. -/
def onMessage (st : ManagerState) (parsed : Option JsonMsg) :
    ManagerState × List Emitted :=
  match parsed with
  | none => (st, [])
  | some message =>
    if st.provider = "deepseek" then handleDeepSeekMessage st message
    else handleOpenAIMessage st message

/-- The base64 alphabet used by `Buffer.toString('base64')`. -/
def base64Chars : List Char :=
  "ABCDEFGHIJKLMNOPQRSTUVWXYZabcdefghijklmnopqrstuvwxyz0123456789+/".toList

/-- Character of the base64 alphabet at an index. -/
def b64At (n : Nat) : Char := base64Chars.getD n 'A'

/-- Base64 encoding of a byte sequence (`Buffer.from(x).toString('base64')`). -/
def base64Encode : List Nat → List Char
  | [] => []
  | [b1] =>
    let n := b1 % 256
    [b64At (n / 4), b64At ((n % 4) * 16), '=', '=']
  | [b1, b2] =>
    let n := (b1 % 256) * 256 + b2 % 256
    [b64At (n / 1024), b64At (n / 16 % 64), b64At ((n % 16) * 4), '=']
  | b1 :: b2 :: b3 :: rest =>
    let n := (b1 % 256) * 65536 + (b2 % 256) * 256 + b3 % 256
    b64At (n / 262144) :: b64At (n / 4096 % 64) :: b64At (n / 64 % 64) ::
      b64At (n % 64) :: base64Encode rest

/-- The provider-specific outbound audio envelope of `sendAudioChunk`. -/
structure AudioEnvelope where
  type : String
  audio : List Char
  timestamp : Option Nat
  deriving DecidableEq, Repr

/-- Embeds `sendAudioChunk`: drops the frame with a `false` return when the
connection handle is absent or the manager is not connected; otherwise
base64-encodes the bytes, wraps them in the provider envelope and writes
the frame (`sendResult` is the outcome of `ws.send`; a throw is caught
and reported as `false`).  The third component is the frame actually
written to the connection, if any.  `now` models `Date.now()`. -/
def sendAudioChunk (st : ManagerState) (audioData : List Nat) (now : Nat)
    (sendResult : Except String Unit) :
    ManagerState × Bool × Option AudioEnvelope :=
  if st.wsConnection = none ∨ st.isConnected = false then (st, false, none)
  else
    let base64Audio := base64Encode audioData
    let message :=
      if st.provider = "deepseek" then
        { type := "audio.chunk", audio := base64Audio,
          timestamp := some now : AudioEnvelope }
      else
        { type := "input_audio_buffer.append", audio := base64Audio,
          timestamp := none : AudioEnvelope }
    match sendResult with
    | Except.ok _ => (st, true, some message)
    | Except.error _ => (st, false, none)

/-- Embeds `close`: if a connection handle is held, close it and clear both the
handle and `isConnected`; otherwise do nothing. -/
def close (st : ManagerState) : ManagerState :=
  match st.wsConnection with
  | some _ => { st with wsConnection := none, isConnected := false }
  | none => st

/-- Embeds `isActive`: pure accessor of `isConnected`. -/
def ManagerState.isActive (st : ManagerState) : Bool := st.isConnected

/-- Embeds `getProvider`: pure accessor of `provider`. -/
def ManagerState.getProvider (st : ManagerState) : String := st.provider

/-- The manager states the program can construct: the constructor result,
closed under every operation and callback.  The `open` callback is only
ever invoked by a WebSocket the manager has stored, hence its guard. -/
inductive Reachable : ManagerState → Prop where
  | init (apiKey provider : String) : Reachable (mkManager apiKey provider)
  | createSession (st : ManagerState) (tokenField : Option String) :
      Reachable st → Reachable (createTranscriptionSession st tokenField).1
  | connectWs (st : ManagerState) (ctorOk : Bool) :
      Reachable st → Reachable (connectToWebSocket st ctorOk).1
  | wsOpen (st : ManagerState) : Reachable st → st.wsConnection ≠ none →
      Reachable (onOpen st).1
  | wsError (st : ManagerState) (e : String) :
      Reachable st → Reachable (onError st e).1
  | wsClose (st : ManagerState) : Reachable st → Reachable (onClose st).1
  | wsMessage (st : ManagerState) (parsed : Option JsonMsg) :
      Reachable st → Reachable (onMessage st parsed).1
  | sendChunk (st : ManagerState) (audioData : List Nat) (now : Nat)
      (sendResult : Except String Unit) :
      Reachable st → Reachable (sendAudioChunk st audioData now sendResult).1
  | doClose (st : ManagerState) : Reachable st → Reachable (close st)

/-- A concrete connected manager obtained by running the constructor, a
successful primary-provider negotiation, the connect call and the `open`
callback. -/
def connectedDemo : ManagerState :=
  (onOpen (connectToWebSocket
    (createOpenAISession (mkManager "key" "openai") (some "tok123")).1 true).1).1

/-!
`SystemAudioCapture`: audio samples are JavaScript numbers in `[-1, 1]`;
every arithmetic step of `convertToPCM16` (clamping with `Math.max` /
`Math.min`, scaling a float32 sample by `0x8000` or `0x7FFF` in double
precision, and the `Int16Array` store) is exact, so the routine is
embedded over the rationals with explicit truncation toward zero and an
explicit 16-bit wrap for the `Int16Array` store.
-/

/-- Truncation toward zero, the ECMAScript ToInteger step of an
`Int16Array` element store: `Int.tdiv` of the numerator by the
denominator rounds toward zero. -/
def truncQ (q : ℚ) : ℤ := Int.tdiv q.num (q.den : ℤ)

/-- One sample of `convertToPCM16`: the sample `s` is clamped to
`[-1, 1]` with `Math.max(-1, Math.min(1, v))`, then negatives scale by
`0x8000` and non-negatives by `0x7FFF`, landing in a 16-bit signed
integer. -/
def convertSample (v : ℚ) : ℤ :=
  if max (-1) (min 1 v) < 0 then truncQ (max (-1) (min 1 v) * 32768)
  else truncQ (max (-1) (min 1 v) * 32767)

/-- The unsigned 16-bit pattern an `Int16Array` element stores for an
integer value. -/
def toUInt16 (v : ℤ) : ℕ := (Int.emod v 65536).toNat

/-- Little-endian byte pair of a stored 16-bit value, as exposed by
`new Uint8Array(pcm16.buffer)`. -/
def packLE (v : ℤ) : List ℕ := [toUInt16 v % 256, toUInt16 v / 256]

/-- Embeds `SystemAudioCapture.convertToPCM16`: per-sample conversion followed
by the little-endian byte view of the `Int16Array` buffer. -/
def convertToPCM16 (float32Array : List ℚ) : List ℕ :=
  (float32Array.map (fun v => packLE (convertSample v))).flatten

/-- Reference PCM encoding following the specification text: clamp each
sample to `[-1.0, 1.0]`; scale negative values by 32768 and non-negative
values by 32767; pack the resulting signed 16-bit values little-endian
into a byte sequence. -/
def clampSpec (x : ℚ) : ℚ := if x < -1 then -1 else if 1 < x then 1 else x

/-- Reference per-sample scaling of the specification text. -/
def sampleToInt16Spec (x : ℚ) : ℤ :=
  if clampSpec x < 0 then truncQ (clampSpec x * 32768)
  else truncQ (clampSpec x * 32767)

/-- Reference byte sequence of the specification text. -/
def pcmReference (samples : List ℚ) : List ℕ :=
  (samples.map (fun x => packLE (sampleToInt16Spec x))).flatten

/-- The private fields of `SystemAudioCapture`; the opened audio context
records its sample rate and the processor node its buffer size. -/
structure CaptureState where
  provider : String
  mediaStream : Option Unit
  audioContext : Option Nat
  sourceNode : Option Unit
  processorNode : Option Nat
  isCapturing : Bool
  deriving DecidableEq, Repr

/-- The `SystemAudioCapture` constructor: the transcription manager
collaborator is retained only through its provider identity. -/
def mkCapture (provider : String) : CaptureState :=
  { provider := provider, mediaStream := none, audioContext := none,
    sourceNode := none, processorNode := none, isCapturing := false }

/-- Sample rate chosen by `initialize`: 16 kHz for the secondary
provider, 24 kHz otherwise. -/
def sampleRateFor (provider : String) : Nat :=
  if provider = "deepseek" then 16000 else 24000

/-- Buffer size chosen by `startCapturing`: 2048 for the secondary
provider, 4096 otherwise. -/
def bufferSizeFor (provider : String) : Nat :=
  if provider = "deepseek" then 2048 else 4096

/-- Embeds `SystemAudioCapture.initialize`: construct the audio context at the
provider's sample rate; `ctorOk` is whether the `AudioContext`
constructor succeeded (a throw is caught and reported as `false`). -/
def initializeCapture (st : CaptureState) (ctorOk : Bool) : CaptureState × Bool :=
  if ctorOk then
    ({ st with audioContext := some (sampleRateFor st.provider) }, true)
  else (st, false)

/-- Embeds `SystemAudioCapture.startCapturing`: returns `true` at once when
already capturing; fails when source enumeration (`sources`) is empty;
acquires the media stream (`streamOk` models `getUserMedia`, whose throw
is caught and reported as `false`); lazily initializes the audio context;
then wires source node, processor node and capture flag. -/
def startCapturing (st : CaptureState) (sources : List String)
    (streamOk ctxOk : Bool) : CaptureState × Bool :=
  if st.isCapturing then (st, true)
  else if sources.length = 0 then (st, false)
  else if streamOk = false then (st, false)
  else
    let st1 := { st with mediaStream := some () }
    let st2 := if st1.audioContext = none then (initializeCapture st1 ctxOk).1 else st1
    if st2.audioContext = none then (st2, false)
    else
      ({ st2 with sourceNode := some (),
                  processorNode := some (bufferSizeFor st2.provider),
                  isCapturing := true }, true)

/-- Embeds `SystemAudioCapture.stopCapturing`: release the stream and nodes and
clear the capture flag; does nothing when not capturing. -/
def stopCapturing (st : CaptureState) : CaptureState :=
  if st.isCapturing = false then st
  else { st with mediaStream := none, processorNode := none,
                 sourceNode := none, isCapturing := false }

/-- Embeds `SystemAudioCapture.isActive`: pure accessor of `isCapturing`. -/
def CaptureState.isActive (st : CaptureState) : Bool := st.isCapturing

/-!
Helper lemmas about the PCM encoder.
-/

/-- Truncation toward zero is the identity on integers. -/
theorem truncQ_intCast (n : ℤ) : truncQ (n : ℚ) = n := by
  unfold truncQ
  rw [Rat.num_intCast, Rat.den_intCast]
  cases n with
  | ofNat m => simp [Int.tdiv]
  | negSucc m => simp [Int.tdiv, Int.negSucc_eq]

/-- The code's clamp `Math.max(-1, Math.min(1, x))` agrees with the
specification's clamp to `[-1, 1]`. -/
theorem clampSpec_eq (x : ℚ) : clampSpec x = max (-1) (min 1 x) := by
  unfold clampSpec
  split_ifs with h1 h2
  · rw [min_eq_right (by linarith), max_eq_left (by linarith)]
  · rw [min_eq_left (by linarith), max_eq_right (by norm_num)]
  · rw [min_eq_right (by linarith), max_eq_right (by linarith)]

/-- Per-sample agreement of the code's conversion with the reference. -/
theorem convertSample_eq_spec (x : ℚ) : convertSample x = sampleToInt16Spec x := by
  unfold convertSample sampleToInt16Spec
  rw [clampSpec_eq]

/-- A full-scale positive sample encodes to the maximum 16-bit value. -/
theorem convertSample_one : convertSample 1 = 32767 := by
  unfold convertSample
  rw [min_self, max_eq_right (by norm_num : (-1 : ℚ) ≤ 1),
    if_neg (by norm_num : ¬ (1 : ℚ) < 0),
    (by norm_num : ((1 : ℚ) * 32767) = ((32767 : ℤ) : ℚ)), truncQ_intCast]

/-- A full-scale negative sample encodes to the minimum 16-bit value. -/
theorem convertSample_negOne : convertSample (-1) = -32768 := by
  unfold convertSample
  rw [min_eq_right (by norm_num : (-1 : ℚ) ≤ 1), max_self,
    if_pos (by norm_num : (-1 : ℚ) < 0),
    (by norm_num : ((-1 : ℚ) * 32768) = ((-32768 : ℤ) : ℚ)), truncQ_intCast]

/-- An out-of-range sample is clamped before scaling. -/
theorem convertSample_two : convertSample 2 = 32767 := by
  unfold convertSample
  rw [min_eq_left (by norm_num : (1 : ℚ) ≤ 2),
    max_eq_right (by norm_num : (-1 : ℚ) ≤ 1),
    if_neg (by norm_num : ¬ (1 : ℚ) < 0),
    (by norm_num : ((1 : ℚ) * 32767) = ((32767 : ℤ) : ℚ)), truncQ_intCast]

/-- Claim C3: the PCM conversion equals the reference definition for
every input sample sequence (clamp to `[-1, 1]`, scale negatives by
32768 and non-negatives by 32767, pack the signed 16-bit results
little-endian); in particular encoding `1.0` yields `32767` (bytes
`[255, 127]`), encoding `-1.0` yields `-32768` (bytes `[0, 128]`), and
encoding `2.0` yields the same bytes as encoding `1.0`. -/
theorem claim_C3_pcm_conversion :
    (∀ samples : List ℚ, convertToPCM16 samples = pcmReference samples) ∧
    convertToPCM16 [1] = [255, 127] ∧
    convertToPCM16 [-1] = [0, 128] ∧
    convertToPCM16 [2] = convertToPCM16 [1] := by
  have hone : convertToPCM16 [1] = packLE (convertSample 1) := by
    simp [convertToPCM16]
  have hnegone : convertToPCM16 [-1] = packLE (convertSample (-1)) := by
    simp [convertToPCM16]
  have htwo : convertToPCM16 [2] = packLE (convertSample 2) := by
    simp [convertToPCM16]
  refine ⟨?_, ?_, ?_, ?_⟩
  · intro samples
    unfold convertToPCM16 pcmReference
    simp only [convertSample_eq_spec]
  · rw [hone, convertSample_one]; decide
  · rw [hnegone, convertSample_negOne]; decide
  · rw [htwo, hone, convertSample_two, convertSample_one]

/-- Claim C9: for every input text the asynchronous `detailedClassify`
returns exactly the category `quickClassify` returns — the detailed
entry point delegates to the same synchronous algorithm. -/
theorem claim_C9_detailed_delegates (text : Str) :
    detailedClassify text = quickClassify text := rfl

/-!
Helper lemmas about the classifier.
-/

/-- The `UNKNOWN` category never scores: it owns no keywords. -/
theorem scoreOf_unknown (text : Str) : scoreOf text QuestionType.UNKNOWN = 0 := rfl

/-- Closed-form description of `quickClassify`: the fold keeps the
earlier category on equal scores, so the winner is the first category of
the enumeration order attaining the (nonzero) maximal score. -/
theorem quickClassify_characterization (text : Str) :
    quickClassify text =
      (if scoreOf text QuestionType.CODING > scoreOf text QuestionType.BEHAVIORAL ∧
          scoreOf text QuestionType.CODING > scoreOf text QuestionType.SYSTEM_DESIGN ∧
          scoreOf text QuestionType.CODING >
            scoreOf text QuestionType.OBJECT_ORIENTED_DESIGN then
        QuestionType.CODING
       else if scoreOf text QuestionType.OBJECT_ORIENTED_DESIGN >
            scoreOf text QuestionType.BEHAVIORAL ∧
          scoreOf text QuestionType.OBJECT_ORIENTED_DESIGN >
            scoreOf text QuestionType.SYSTEM_DESIGN then
        QuestionType.OBJECT_ORIENTED_DESIGN
       else if scoreOf text QuestionType.SYSTEM_DESIGN >
            scoreOf text QuestionType.BEHAVIORAL then
        QuestionType.SYSTEM_DESIGN
       else if scoreOf text QuestionType.BEHAVIORAL > 0 then QuestionType.BEHAVIORAL
       else QuestionType.UNKNOWN) := by
  unfold quickClassify scoreOf keywordsOf
  simp only [keywordMap, List.map, List.foldl]
  split_ifs <;> first | rfl | omega

/-- Concrete input refuting the literal tie clause of claim C2: the
Behavioral and SystemDesign categories tie at one match each, yet a
third category scores higher and wins. -/
def cexC2Text : Str :=
  "conflict scalability inheritance polymorphism singleton".toList

/-- Claim C2 counterexample: on `cexC2Text` two categories (Behavioral
and SystemDesign) have equal nonzero substring-match counts, but
`quickClassify` does not return the first of them (Behavioral); it
returns ObjectOrientedDesign, whose count is higher. -/
theorem claim_C2_counterexample :
    scoreOf cexC2Text QuestionType.BEHAVIORAL = 1 ∧
    scoreOf cexC2Text QuestionType.SYSTEM_DESIGN = 1 ∧
    quickClassify cexC2Text = QuestionType.OBJECT_ORIENTED_DESIGN ∧
    quickClassify cexC2Text ≠ QuestionType.BEHAVIORAL := by decide

/-- Claim C2 (amended): for every input text, (1) if no listed keyword
of any category occurs, `quickClassify` returns Unknown; (2) if the
lower-cased text matches keywords of exactly one category, the result is
that category; (3) when two or more categories tie for the highest
nonzero match count, the result is the first of them in the fixed order
Behavioral, SystemDesign, ObjectOrientedDesign, Coding. -/
theorem claim_C2_classifier (text : Str) :
    ((∀ t : QuestionType, scoreOf text t = 0) →
      quickClassify text = QuestionType.UNKNOWN) ∧
    (∀ t : QuestionType, 0 < scoreOf text t →
      (∀ u : QuestionType, u ≠ t → scoreOf text u = 0) →
      quickClassify text = t) ∧
    (∀ t : QuestionType, 0 < scoreOf text t →
      (∀ u : QuestionType, scoreOf text u ≤ scoreOf text t) →
      (∀ u : QuestionType, scoreOf text u = scoreOf text t →
        catIndex t ≤ catIndex u) →
      quickClassify text = t) := by
  have hchar := quickClassify_characterization text
  have hu0 := scoreOf_unknown text
  refine ⟨?_, ?_, ?_⟩
  · intro hz
    rw [hchar]
    have hb := hz QuestionType.BEHAVIORAL
    have hs := hz QuestionType.SYSTEM_DESIGN
    have ho := hz QuestionType.OBJECT_ORIENTED_DESIGN
    have hc := hz QuestionType.CODING
    split_ifs <;> first | rfl | omega
  · intro t h0 hz
    rw [hchar]
    cases t with
    | BEHAVIORAL =>
      have hs := hz QuestionType.SYSTEM_DESIGN (by decide)
      have ho := hz QuestionType.OBJECT_ORIENTED_DESIGN (by decide)
      have hc := hz QuestionType.CODING (by decide)
      split_ifs <;> first | rfl | omega
    | SYSTEM_DESIGN =>
      have hb := hz QuestionType.BEHAVIORAL (by decide)
      have ho := hz QuestionType.OBJECT_ORIENTED_DESIGN (by decide)
      have hc := hz QuestionType.CODING (by decide)
      split_ifs <;> first | rfl | omega
    | OBJECT_ORIENTED_DESIGN =>
      have hb := hz QuestionType.BEHAVIORAL (by decide)
      have hs := hz QuestionType.SYSTEM_DESIGN (by decide)
      have hc := hz QuestionType.CODING (by decide)
      split_ifs <;> first | rfl | omega
    | CODING =>
      have hb := hz QuestionType.BEHAVIORAL (by decide)
      have hs := hz QuestionType.SYSTEM_DESIGN (by decide)
      have ho := hz QuestionType.OBJECT_ORIENTED_DESIGN (by decide)
      split_ifs <;> first | rfl | omega
    | UNKNOWN => exfalso; omega
  · intro t h0 hmax hfirst
    rw [hchar]
    cases t with
    | BEHAVIORAL =>
      have hs := hmax QuestionType.SYSTEM_DESIGN
      have ho := hmax QuestionType.OBJECT_ORIENTED_DESIGN
      have hc := hmax QuestionType.CODING
      split_ifs <;> first | rfl | omega
    | SYSTEM_DESIGN =>
      have hb := hmax QuestionType.BEHAVIORAL
      have ho := hmax QuestionType.OBJECT_ORIENTED_DESIGN
      have hc := hmax QuestionType.CODING
      have hbne := hfirst QuestionType.BEHAVIORAL
      simp only [catIndex] at hbne
      split_ifs <;> first | rfl | omega
    | OBJECT_ORIENTED_DESIGN =>
      have hb := hmax QuestionType.BEHAVIORAL
      have hs := hmax QuestionType.SYSTEM_DESIGN
      have hc := hmax QuestionType.CODING
      have hbne := hfirst QuestionType.BEHAVIORAL
      have hsne := hfirst QuestionType.SYSTEM_DESIGN
      simp only [catIndex] at hbne hsne
      split_ifs <;> first | rfl | omega
    | CODING =>
      have hb := hmax QuestionType.BEHAVIORAL
      have hs := hmax QuestionType.SYSTEM_DESIGN
      have ho := hmax QuestionType.OBJECT_ORIENTED_DESIGN
      have hbne := hfirst QuestionType.BEHAVIORAL
      have hsne := hfirst QuestionType.SYSTEM_DESIGN
      have hone := hfirst QuestionType.OBJECT_ORIENTED_DESIGN
      simp only [catIndex] at hbne hsne hone
      split_ifs <;> first | rfl | omega
    | UNKNOWN => exfalso; omega

/-- Claim C2 witness: concrete texts exercising each part of the amended
classifier claim. -/
theorem claim_C2_witness :
    quickClassify "Leadership".toList = QuestionType.BEHAVIORAL ∧
    quickClassify "just some words".toList = QuestionType.UNKNOWN ∧
    quickClassify "conflict scalability".toList = QuestionType.BEHAVIORAL :=
  ⟨(claim_C2_classifier "Leadership".toList).2.1 QuestionType.BEHAVIORAL
      (by decide) (fun u hu => by cases u <;> first | exact absurd rfl hu | decide),
   (claim_C2_classifier "just some words".toList).1 (fun t => by cases t <;> decide),
   (claim_C2_classifier "conflict scalability".toList).2.2 QuestionType.BEHAVIORAL
      (by decide) (fun u => by cases u <;> decide) (fun u h => by cases u <;> decide)⟩

/-!
Helper lemmas about the session manager.
-/

/-- The primary-provider dispatcher never writes a manager field. -/
theorem handleOpenAIMessage_fst (st : ManagerState) (m : JsonMsg) :
    (handleOpenAIMessage st m).1 = st := by
  unfold handleOpenAIMessage
  split_ifs <;> rfl

/-- The secondary-provider dispatcher never writes a manager field. -/
theorem handleDeepSeekMessage_fst (st : ManagerState) (m : JsonMsg) :
    (handleDeepSeekMessage st m).1 = st := by
  unfold handleDeepSeekMessage
  split_ifs <;> rfl

/-- The inbound message callback never writes a manager field. -/
theorem onMessage_fst (st : ManagerState) (parsed : Option JsonMsg) :
    (onMessage st parsed).1 = st := by
  unfold onMessage
  cases parsed with
  | none => rfl
  | some m =>
    split_ifs with h
    · exact handleDeepSeekMessage_fst st m
    · exact handleOpenAIMessage_fst st m

/-- The send operation `sendAudioChunk` never writes a manager field. -/
theorem sendAudioChunk_state_eq (st : ManagerState) (audioData : List Nat)
    (now : Nat) (sendResult : Except String Unit) :
    (sendAudioChunk st audioData now sendResult).1 = st := by
  cases sendResult <;> (unfold sendAudioChunk; split_ifs <;> rfl)

/-- Invariant of every reachable manager state: a state marked connected
holds a connection handle. -/
theorem reachable_connected_has_ws (st : ManagerState) (hr : Reachable st) :
    st.isConnected = true → st.wsConnection ≠ none := by
  induction hr with
  | init apiKey provider => intro h; simp [mkManager] at h
  | createSession st tokenField hr ih =>
    unfold createTranscriptionSession createOpenAISession createDeepSeekSession
    split_ifs <;> cases tokenField <;> simpa using ih
  | connectWs st ctorOk hr ih =>
    unfold connectToWebSocket
    cases hst : st.sessionToken with
    | none => simpa using ih
    | some tok =>
      cases ctorOk with
      | false => simpa using ih
      | true => intro _; simp
  | wsOpen st hr hws ih => intro _; simpa [onOpen] using hws
  | wsError st e hr ih => simpa [onError] using ih
  | wsClose st hr ih => intro h; simp [onClose] at h
  | wsMessage st parsed hr ih => rw [onMessage_fst]; exact ih
  | sendChunk st audioData now sendResult hr ih =>
    rw [sendAudioChunk_state_eq]; exact ih
  | doClose st hr ih =>
    unfold close
    cases hws : st.wsConnection with
    | none => simpa using ih
    | some endpoint => intro h; simp at h

/-- The manager's connection state is Connected: a connection handle is
held and the connected flag is set. -/
def connectionStateConnected (st : ManagerState) : Prop :=
  st.wsConnection ≠ none ∧ st.isConnected = true

/-- Claim C1 counterexample: in the concrete connected state reached by
negotiating, connecting and receiving the `open` event, the transport
`error` callback emits the `error` event but leaves `isConnected` at
`true` — it does not set the connection state to Closed. -/
theorem claim_C1_counterexample :
    connectedDemo.isConnected = true ∧
    (onError connectedDemo "socket failure").2 = [Emitted.errorEv "socket failure"] ∧
    (onError connectedDemo "socket failure").1.isConnected = true := by decide

/-- Claim C1 (amended): on an abrupt close the manager emits
`disconnected` and sets `isConnected` to `false`; on a transport-level
failure event it emits `error` but changes no field of the manager — in
particular the connection state is not set to Closed by the error
callback itself. -/
theorem claim_C1_transport_events (st : ManagerState) (e : String) :
    onError st e = (st, [Emitted.errorEv e]) ∧
    onClose st = ({ st with isConnected := false }, [Emitted.disconnected]) ∧
    (onClose st).1.isConnected = false :=
  ⟨rfl, rfl, rfl⟩

/-- Claim C4: `sendAudioChunk` returns `false` and drops the frame
(state untouched, nothing written to the connection) whenever the
connection state is not Connected; and a send failure while connected is
caught and also yields a `false` return — the embedding is a total
function, so no fault propagates. -/
theorem claim_C4_send_guard (audioData : List Nat) (now : Nat) (e : String) :
    (∀ st : ManagerState, ¬ connectionStateConnected st →
      ∀ sendResult, sendAudioChunk st audioData now sendResult = (st, false, none)) ∧
    (∀ st : ManagerState,
      (sendAudioChunk st audioData now (Except.error e)).2.1 = false) := by
  constructor
  · intro st h sendResult
    have hor : st.wsConnection = none ∨ st.isConnected = false := by
      unfold connectionStateConnected at h
      push_neg at h
      by_cases hws : st.wsConnection = none
      · exact Or.inl hws
      · exact Or.inr (by simpa using h hws)
    unfold sendAudioChunk
    rw [if_pos hor]
  · intro st
    unfold sendAudioChunk
    split_ifs <;> rfl

/-- Claim C4 witness: a freshly constructed manager is not connected and
drops a concrete frame with a `false` return. -/
theorem claim_C4_witness :
    sendAudioChunk (mkManager "k" "openai") [1, 2, 3] 7 (Except.ok ()) =
      (mkManager "k" "openai", false, none) :=
  (claim_C4_send_guard [1, 2, 3] 7 "boom").1 (mkManager "k" "openai")
    (fun h => absurd h.2 (by decide)) (Except.ok ())

/-- Claim C5: whenever no session token has been obtained, `connect`
returns `false`, leaves the whole state (hence the absent connection
handle) untouched, and emits nothing — in particular no `connected`
event. -/
theorem claim_C5_connect_needs_token (st : ManagerState) (ctorOk : Bool)
    (h : st.sessionToken = none) :
    connectToWebSocket st ctorOk = (st, false, []) ∧
    (connectToWebSocket st ctorOk).1.wsConnection = st.wsConnection := by
  have key : connectToWebSocket st ctorOk = (st, false, []) := by
    unfold connectToWebSocket
    rw [h]
  exact ⟨key, by rw [key]⟩

/-- Claim C5 witness: the freshly constructed manager holds no token and
its `connect` fails without opening anything or emitting anything. -/
theorem claim_C5_witness :
    connectToWebSocket (mkManager "k" "openai") true =
      (mkManager "k" "openai", false, []) ∧
    (connectToWebSocket (mkManager "k" "openai") true).1.wsConnection =
      (mkManager "k" "openai").wsConnection :=
  claim_C5_connect_needs_token (mkManager "k" "openai") true rfl

/-- Claim C6: an inbound frame whose payload is not JSON-parseable is
discarded by the message callback: the callback (a total function — the
`catch` swallows the parse exception) emits nothing, changes no field,
and in particular leaves the connected flag and the connection handle
as they were. -/
theorem claim_C6_malformed_message (st : ManagerState) :
    onMessage st none = (st, []) ∧
    (onMessage st none).1.isConnected = st.isConnected ∧
    (onMessage st none).1.wsConnection = st.wsConnection :=
  ⟨rfl, rfl, rfl⟩

/-- Claim C7: in every reachable manager state, `close` leaves the
connection handle absent and the connected flag cleared, and a second
`close` from the resulting state changes nothing. -/
theorem claim_C7_close_idempotent (st : ManagerState) (hr : Reachable st) :
    (close st).wsConnection = none ∧ (close st).isConnected = false ∧
    close (close st) = close st := by
  have hinv := reachable_connected_has_ws st hr
  cases hws : st.wsConnection with
  | some endpoint => simp [close, hws]
  | none =>
    have hic : st.isConnected = false := by
      cases hic : st.isConnected
      · rfl
      · exact absurd hws (hinv hic)
    simp [close, hws, hic]

/-- Claim C7 witness: a freshly constructed manager is reachable and
`close` on it is a no-op that satisfies all three conjuncts. -/
theorem claim_C7_witness :
    (close (mkManager "k" "openai")).wsConnection = none ∧
    (close (mkManager "k" "openai")).isConnected = false ∧
    close (close (mkManager "k" "openai")) = close (mkManager "k" "openai") :=
  claim_C7_close_idempotent (mkManager "k" "openai") (Reachable.init "k" "openai")

/-- Claim C8: `startCapturing` invoked while not capturing, with source
enumeration returning zero sources, returns `false`, sets no capture
state, and leaves `isActive` false. -/
theorem claim_C8_no_sources (st : CaptureState) (streamOk ctxOk : Bool)
    (h : st.isCapturing = false) :
    startCapturing st [] streamOk ctxOk = (st, false) ∧
    (startCapturing st [] streamOk ctxOk).1.isActive = false := by
  have h1 : ¬ (st.isCapturing = true) := by simp [h]
  have key : startCapturing st [] streamOk ctxOk = (st, false) := by
    unfold startCapturing
    rw [if_neg h1]
    simp
  refine ⟨key, ?_⟩
  rw [key]
  exact h

/-- Claim C8 witness: the freshly constructed capture pipeline with an
empty source enumeration. -/
theorem claim_C8_witness :
    startCapturing (mkCapture "openai") [] true true = (mkCapture "openai", false) ∧
    (startCapturing (mkCapture "openai") [] true true).1.isActive = false :=
  claim_C8_no_sources (mkCapture "openai") true true rfl

/-- Claim C10: `sendAudioChunk` is observationally pure on the manager:
whatever the connection state, the frame and the send outcome, every
field — provider, apiKey, sessionToken, connection handle and the
connected flag — is unchanged by the call. -/
theorem claim_C10_send_frame_effect (st : ManagerState) (audioData : List Nat)
    (now : Nat) (sendResult : Except String Unit) :
    (sendAudioChunk st audioData now sendResult).1 = st ∧
    (sendAudioChunk st audioData now sendResult).1.provider = st.provider ∧
    (sendAudioChunk st audioData now sendResult).1.apiKey = st.apiKey ∧
    (sendAudioChunk st audioData now sendResult).1.sessionToken = st.sessionToken ∧
    (sendAudioChunk st audioData now sendResult).1.wsConnection = st.wsConnection ∧
    (sendAudioChunk st audioData now sendResult).1.isConnected = st.isConnected := by
  have h := sendAudioChunk_state_eq st audioData now sendResult
  exact ⟨h, by rw [h], by rw [h], by rw [h], by rw [h], by rw [h]⟩
